import Mathlib

/-!
Shallow embedding of the node-vlc-http client (src/lib/index.ts).

The VLC class holds a cached status and playlist (both initialised to the
JavaScript value null), a change-events flag, and a tick scheduler.  The
network transport is external: each modelled operation takes the outcome of
its HTTP fetch as an explicit argument of type Except String JsonVal
(error = rejected promise, ok = parsed JSON body).  Event emission is
modelled as an explicit trace of emitted events.
-/

namespace VlcHttp

/-- JSON values as produced by JSON.parse: null, booleans, numbers (modelled
as integers, fractional values play no role in the claims), strings, arrays,
and objects as ordered lists of key/value fields with unique keys. -/
inductive JsonVal where
  | null
  | bool (b : Bool)
  | num (n : Int)
  | str (s : String)
  | arr (elems : List JsonVal)
  | obj (fields : List (String × JsonVal))

/-- Look a key up in an object field list (first match, as in a JS object
whose keys are unique). -/
def lookupField (k : String) : List (String × JsonVal) → Option JsonVal
  | [] => none
  | (k2, v) :: rest => if k2 == k then some v else lookupField k rest

/-- JavaScript truthiness of a JSON value, as used by the expressions
(this underscore status || status) in updateStatus and updatePlaylist and
by the falsiness dispatch of the deep-equal package. -/
def truthy : JsonVal → Bool
  | .null => false
  | .bool b => b
  | .num n => n != 0
  | .str s => s != ""
  | .arr _ => true
  | .obj _ => true

/-- Whether the JavaScript typeof of a JSON value is not the string object
(null, arrays and objects all have typeof object). -/
def nonObject : JsonVal → Bool
  | .bool _ => true
  | .num _ => true
  | .str _ => true
  | _ => false

/-- Numeric value of a run of decimal digit characters. -/
def digitsToNat (cs : List Char) : Nat :=
  cs.foldl (fun a c => a * 10 + (c.toNat - 48)) 0

/-- A nonempty run of decimal digits. -/
def allDigits (cs : List Char) : Bool :=
  !cs.isEmpty && cs.all Char.isDigit

/-- Hexadecimal digit test. -/
def isHexDigitCh (c : Char) : Bool :=
  c.isDigit || ('a' ≤ c && c ≤ 'f') || ('A' ≤ c && c ≤ 'F')

/-- Value of a hexadecimal digit. -/
def hexDigitVal (c : Char) : Nat :=
  if c.isDigit then c.toNat - 48
  else if 'a' ≤ c && c ≤ 'f' then c.toNat - 87
  else c.toNat - 55

/-- Body of an unsigned radix numeric literal (after the 0x, 0o or 0b
marker). -/
def strRadix? (digitOk : Char → Bool) (val : Char → Nat) (base : Nat)
    (cs : List Char) : Option Int :=
  if !cs.isEmpty && cs.all digitOk then
    some (Int.ofNat (cs.foldl (fun a c => a * base + val c) 0))
  else
    none

/-- An unsigned decimal numeric literal: digits with an optional dot and
fraction and an optional signed exponent, evaluated exactly.  Returns the
value when it is an integer, and none when the text is not such a literal
or its value is not an integer - the sole use of this function is equality
against integer numbers, which a non-integer value never satisfies. -/
def strUnsignedDec? (cs : List Char) : Option Int :=
  let (mant, expPart) :=
    match cs.findIdx? (fun c => c == 'e' || c == 'E') with
    | some i => (cs.take i, some (cs.drop (i + 1)))
    | none => (cs, none)
  let (ip, fp) :=
    match mant.findIdx? (fun c => c == '.') with
    | some i => (mant.take i, mant.drop (i + 1))
    | none => (mant, [])
  if !(ip.all Char.isDigit) || !(fp.all Char.isDigit)
      || (ip.isEmpty && fp.isEmpty) then
    none
  else
    let expVal? : Option Int :=
      match expPart with
      | none => some 0
      | some ('+' :: ds) =>
          if allDigits ds then some (Int.ofNat (digitsToNat ds)) else none
      | some ('-' :: ds) =>
          if allDigits ds then some (-(Int.ofNat (digitsToNat ds))) else none
      | some ds =>
          if allDigits ds then some (Int.ofNat (digitsToNat ds)) else none
    match expVal? with
    | none => none
    | some e =>
      let n : Nat := digitsToNat ip * 10 ^ fp.length + digitsToNat fp
      let k : Int := e - Int.ofNat fp.length
      if 0 ≤ k then
        some (Int.ofNat (n * 10 ^ k.toNat))
      else
        let m := (-k).toNat
        if n % 10 ^ m == 0 then some (Int.ofNat (n / 10 ^ m)) else none

/-- Strip leading and trailing ASCII whitespace from a character list. -/
def trimWs (cs : List Char) : List Char :=
  ((cs.dropWhile Char.isWhitespace).reverse.dropWhile Char.isWhitespace).reverse

/-- JS ToNumber of a string, used for == comparisons against integer
numbers: surrounding ASCII whitespace is trimmed, the empty string means 0,
and the body may be a signed decimal literal (with optional fraction and
exponent) or an unsigned hexadecimal, octal or binary literal.  Yields none
both when the string is not numeric (NaN in JS) and when its exact value is
not an integer (including Infinity): neither ever equals an integer
number. -/
def toNumber (s : String) : Option Int :=
  match trimWs s.toList with
  | [] => some 0
  | '+' :: rest => strUnsignedDec? rest
  | '-' :: rest => (strUnsignedDec? rest).map (fun n => -n)
  | '0' :: 'x' :: rest => strRadix? isHexDigitCh hexDigitVal 16 rest
  | '0' :: 'X' :: rest => strRadix? isHexDigitCh hexDigitVal 16 rest
  | '0' :: 'o' :: rest =>
      strRadix? (fun c => '0' ≤ c && c ≤ '7') (fun c => c.toNat - 48) 8 rest
  | '0' :: 'O' :: rest =>
      strRadix? (fun c => '0' ≤ c && c ≤ '7') (fun c => c.toNat - 48) 8 rest
  | '0' :: 'b' :: rest =>
      strRadix? (fun c => c == '0' || c == '1') (fun c => c.toNat - 48) 2 rest
  | '0' :: 'B' :: rest =>
      strRadix? (fun c => c == '0' || c == '1') (fun c => c.toNat - 48) 2 rest
  | cs => strUnsignedDec? cs

/-- JS ToNumber of a boolean. -/
def boolToInt (b : Bool) : Int :=
  if b then 1 else 0

/-- JS loose equality of an integer number against a string: the string is
converted with ToNumber and compared numerically. -/
def jsEqNum (x : Int) (s : String) : Bool :=
  match toNumber s with
  | some m => x == m
  | none => false

mutual

/-- JS String conversion of a value as an element of Array.prototype.join:
null becomes empty, booleans and numbers print, nested arrays join
recursively, and plain objects print as their default tag. -/
def joinElem : JsonVal → String
  | .null => ""
  | .bool b => if b then "true" else "false"
  | .num n => toString n
  | .str s => s
  | .arr xs => joinList xs
  | .obj _ => "[object Object]"

/-- Array.prototype.join with the default comma separator. -/
def joinList : List JsonVal → String
  | [] => ""
  | [x] => joinElem x
  | x :: xs => joinElem x ++ "," ++ joinList xs

end

/-- JS ToPrimitive with the default hint: arrays stringify via join,
objects via their default tag, primitives stay themselves. -/
def toPrim : JsonVal → JsonVal
  | .arr xs => .str (joinList xs)
  | .obj _ => .str "[object Object]"
  | v => v

/-- JS loose equality (==) of two primitive values (null, boolean, number
or string): same-type values compare by value, null equals only null (and
undefined, absent from JSON), and mixed number/string/boolean pairs
compare numerically after ToNumber conversion. -/
def looseEqPrim : JsonVal → JsonVal → Bool
  | .null, .null => true
  | .bool a, .bool b => a == b
  | .num a, .num b => a == b
  | .str a, .str b => a == b
  | .num a, .str s => jsEqNum a s
  | .str s, .num a => jsEqNum a s
  | .bool a, .num b => boolToInt a == b
  | .num a, .bool b => a == boolToInt b
  | .bool a, .str s => jsEqNum (boolToInt a) s
  | .str s, .bool a => jsEqNum (boolToInt a) s
  | _, _ => false

/-- JS loose equality (==) as the deep-equal package invokes it: at least
one side is primitive or falsy there, never two truthy objects, so an
object side is first converted with ToPrimitive and the primitive values
are then compared loosely. -/
def looseEq (a b : JsonVal) : Bool :=
  looseEqPrim (toPrim a) (toPrim b)

mutual

/-- Embedding of the deep-equal npm package in its default loose mode
(version 2 semantics, restricted to JSON values): when either side is
falsy, or both sides are non-objects, the sides compare with JS loose
equality == - this is the coercive leaf case, under which for instance the
number 1 equals the string 1; otherwise two arrays compare index-wise, two
objects compare by key count and then, for every key of the left object,
by deep-comparing its value with the value at the same key of the right
object - so key insertion order is irrelevant - and any remaining mix (an
array against an object, or a truthy primitive against either) is
unequal. -/
def deepEqual (a b : JsonVal) : Bool :=
  if !truthy a || !truthy b || (nonObject a && nonObject b) then
    looseEq a b
  else
    match a, b with
    | .arr xs, .arr ys => deepEqualList xs ys
    | .obj fa, .obj fb => fa.length == fb.length && deepEqualFields fa fb
    | _, _ => false

/-- Index-wise deep equality of two JSON arrays. -/
def deepEqualList : List JsonVal → List JsonVal → Bool
  | [], [] => true
  | x :: xs, y :: ys => deepEqual x y && deepEqualList xs ys
  | _, _ => false

/-- For every field of the first object, the second object has the same key
and a deep-equal value. -/
def deepEqualFields : List (String × JsonVal) → List (String × JsonVal) → Bool
  | [], _ => true
  | (k, v) :: rest, fb =>
    (match lookupField k fb with
     | some w => deepEqual v w
     | none => false) && deepEqualFields rest fb

end

/-- Events emitted by the VLC class.  The tick delta is kept in nanoseconds
(the source multiplies by a constant to convert to seconds); error events
carry the message of the JavaScript error value. -/
inductive Event where
  | tick (delta : Int)
  | update (status playlist : JsonVal)
  | statuschange (prev next : JsonVal)
  | playlistchange (prev next : JsonVal)
  | error (e : String)
  | connect

/-- The mutable cache and configuration of a VLC instance: the changeEvents
flag (fixed at construction) and the two cache cells.  In the source each
cell is declared as Status/Playlist but initialised to the JavaScript value
null, so a cell is a JsonVal and the empty cache holds JsonVal.null. -/
structure VLCState where
  changeEvents : Bool
  status : JsonVal
  playlist : JsonVal

/-- VLC.updateStatus.  Arguments: the current instance state, the outcome of
the status fetch, and the behaviour of the statuschange listeners when the
event is emitted (none = no listener throws, some e = a listener throws an
exception with message e, which the source catches and re-emits as an error
event).  Returns the new state, the trace of emitted events, and the
outcome of the call (rejection or resolved value). -/
def updateStatusH (st : VLCState) (fetched : Except String JsonVal)
    (handlerEx : Option String) : VLCState × List Event × Except String JsonVal :=
  match fetched with
  | .error e => (st, [], .error e)
  | .ok status =>
    if st.changeEvents && !deepEqual status st.status then
      let prev := if truthy st.status then st.status else status
      let evs := match handlerEx with
        | none => [Event.statuschange prev status]
        | some e => [Event.statuschange prev status, Event.error e]
      ({ st with status := status }, evs, .ok status)
    else
      (st, [], .ok status)

/-- VLC.updatePlaylist, symmetric to updateStatusH on the playlist cell. -/
def updatePlaylistH (st : VLCState) (fetched : Except String JsonVal)
    (handlerEx : Option String) : VLCState × List Event × Except String JsonVal :=
  match fetched with
  | .error e => (st, [], .error e)
  | .ok playlist =>
    if st.changeEvents && !deepEqual playlist st.playlist then
      let prev := if truthy st.playlist then st.playlist else playlist
      let evs := match handlerEx with
        | none => [Event.playlistchange prev playlist]
        | some e => [Event.playlistchange prev playlist, Event.error e]
      ({ st with playlist := playlist }, evs, .ok playlist)
    else
      (st, [], .ok playlist)

/-- VLC.updateAll.  The source awaits Promise.all of updateStatus and
updatePlaylist: both fetches run to completion (so the change-event side
effects of a succeeding sibling still happen even when the other fetch
fails), then, on joint success, the update event is emitted inside a
try/catch whose catch re-emits a listener exception as an error event
(updateEx models a throwing update listener), and the pair is returned;
if either fetch failed, Promise.all rejects instead and no update event is
emitted.  Change listeners are modelled as non-throwing here. -/
def updateAllH (st : VLCState) (fs fp : Except String JsonVal)
    (updateEx : Option String) :
    VLCState × List Event × Except String (JsonVal × JsonVal) :=
  let rs := updateStatusH st fs none
  let rp := updatePlaylistH rs.1 fp none
  match rs.2.2, rp.2.2 with
  | .ok s, .ok p =>
    let evs := match updateEx with
      | none => [Event.update s p]
      | some e => [Event.update s p, Event.error e]
    (rp.1, rs.2.1 ++ rp.2.1 ++ evs, .ok (s, p))
  | .error e, _ => (rp.1, rs.2.1 ++ rp.2.1, .error e)
  | .ok _, .error e => (rp.1, rs.2.1 ++ rp.2.1, .error e)

/-- VLC.updateAll with non-throwing update listeners. -/
def updateAll (st : VLCState) (fs fp : Except String JsonVal) :
    VLCState × List Event × Except String (JsonVal × JsonVal) :=
  updateAllH st fs fp none

/-- The scheduler clock fields of a VLC instance (all in nanoseconds):
the instant of the previous fire, the next wake target, and the tick
period. -/
structure SchedState where
  prev : Int
  target : Int
  tickLengthNano : Int
deriving DecidableEq, Repr

/-- The fire decision at the head of VLC. underscore doTick: read the clock
(now); if now has reached the target, record now as the previous fire time,
set the target to now plus one tick period, and emit a tick event carrying
the time elapsed since the previous fire (kept in nanoseconds here; the
source scales it to seconds by a constant factor).  Otherwise nothing
happens.  The subsequent setTimeout/setImmediate re-arming choice does not
touch prev or target and is not modelled. -/
def doTickSched (s : SchedState) (now : Int) : SchedState × List Event :=
  if now ≥ s.target then
    ({ s with prev := now, target := now + s.tickLengthNano },
     [Event.tick (now - s.prev)])
  else
    (s, [])

/-- The refresh issued by a fire of underscore doTick: updateAll with its
rejection routed to the error event by the attached catch handler, so the
scheduler path exposes no rejected promise. -/
def doTickRefresh (st : VLCState) (fs fp : Except String JsonVal) :
    VLCState × List Event :=
  let r := updateAll st fs fp
  match r.2.2 with
  | .ok _ => (r.1, r.2.1)
  | .error e => (r.1, r.2.1 ++ [Event.error e])

/-- The tail of the VLC constructor: one reachability probe (a status
fetch), then catch routing a probe rejection to the error event, then a
then-handler that starts the tick loop when autoUpdate is enabled.  Because
the catch handler turns a rejection into a resolution, the then-handler
runs whatever the probe outcome was.  Returns the emitted events and
whether the tick loop was armed. -/
def startup (autoUpdate : Bool) (probe : Except String JsonVal) :
    List Event × Bool :=
  let evs := match probe with
    | .error e => [Event.error e]
    | .ok _ => []
  (evs, autoUpdate)

/-- A value of a query-string parameter object as passed to
querystring.stringify: a string, a number, or the JavaScript value
undefined (an explicitly present object property whose value is
undefined). -/
inductive JsParam where
  | str (s : String)
  | num (n : Int)
  | undef
deriving DecidableEq, Repr

/-- The value coercion of querystring.stringify: strings kept, numbers
printed, undefined coerced to the empty string.  Percent-encoding of
reserved characters is not modelled (the inputs of the claims contain
none). -/
def coerceParam : JsParam → String
  | .str s => s
  | .num n => toString n
  | .undef => ""

/-- Write a key into a JavaScript object literal under construction: a
repeated key keeps its first position and takes the last value. -/
def setKey (ps : List (String × JsParam)) (k : String) (v : JsParam) :
    List (String × JsParam) :=
  if ps.any (fun p => p.1 == k) then
    ps.map (fun p => if p.1 == k then (k, v) else p)
  else
    ps ++ [(k, v)]

/-- A JavaScript object literal built from a sequence of properties (as in
a spread), with last-wins semantics for repeated keys. -/
def objLit (ps : List (String × JsParam)) : List (String × JsParam) :=
  ps.foldl (fun acc p => setKey acc p.1 p.2) []

/-- querystring.stringify on the fields of an object: key=value pairs
joined with ampersands. -/
def stringifyQS (ps : List (String × JsParam)) : String :=
  String.intercalate "&" (ps.map (fun p => p.1 ++ "=" ++ coerceParam p.2))

/-- JavaScript truthiness of the optional command argument of
VLC. underscore sendCommand (absent, null and the empty string are
falsy). -/
def commandTruthy : Option String → Bool
  | none => false
  | some s => s != ""

/-- The query variable of VLC. underscore sendCommand, kept as the object
whose stringification it holds.  The variable starts as null; when the
command is truthy it is assigned the stringification of the object literal
with the command property first and the options spread behind it; the
second branch tests the query variable itself (still null at that point)
rather than the options, so it never fires and the variable stays null when
the command is absent. -/
def sendCommandPairs (command : Option String)
    (options : List (String × JsParam)) : Option (List (String × JsParam)) :=
  let query : Option (List (String × JsParam)) := none
  if commandTruthy command then
    some (objLit (("command", JsParam.str (command.getD "")) :: options))
  else if !commandTruthy command && query.isSome then
    some (objLit options)
  else
    query

/-- The stringified query of VLC. underscore sendCommand. -/
def sendCommandQuery (command : Option String)
    (options : List (String × JsParam)) : Option String :=
  (sendCommandPairs command options).map stringifyQS

/-- JavaScript truthiness of the query string variable at the point the
request path is built (null and the empty string are falsy). -/
def queryTruthy : Option String → Bool
  | none => false
  | some s => s != ""

/-- The request path built by VLC. underscore sendCommand: the scope,
followed by a question mark and the query string when the latter is
truthy. -/
def sendCommandPath (scope : String) (command : Option String)
    (options : List (String × JsParam)) : String :=
  let query := sendCommandQuery command options
  scope ++ (if queryTruthy query then "?" ++ query.getD "" else "")

namespace CommandScope

/-- The browse endpoint. -/
def BROWSE : String := "/requests/browse.json"

/-- The status endpoint. -/
def STATUS : String := "/requests/status.json"

/-- The playlist endpoint. -/
def PLAYLIST : String := "/requests/playlist.json"

end CommandScope

/-- The request path issued by VLC.browse: scope BROWSE, no command, and a
dir property holding the target path. -/
def browsePath (path : String) : String :=
  sendCommandPath CommandScope.BROWSE none [("dir", JsParam.str path)]

/-- The parameter object built by VLC.addToQueueAndPlay: the input property
holds the uri and the option property holds the option argument, which is
the JavaScript value undefined when the caller omitted it. -/
def addToQueueAndPlayParams (uri : String) (opt : Option String) :
    List (String × JsParam) :=
  [("input", JsParam.str uri),
   ("option", match opt with | some o => JsParam.str o | none => JsParam.undef)]

/-- The request path issued by VLC.addToQueueAndPlay: scope STATUS, command
in underscore play, with the parameter object above. -/
def addToQueueAndPlayPath (uri : String) (opt : Option String) : String :=
  sendCommandPath CommandScope.STATUS (some "in_play")
    (addToQueueAndPlayParams uri opt)

/-- Recognise a statuschange event in an emission trace. -/
def isStatusChangeEv : Event → Bool
  | .statuschange _ _ => true
  | _ => false

/-- Recognise a playlistchange event in an emission trace. -/
def isPlaylistChangeEv : Event → Bool
  | .playlistchange _ _ => true
  | _ => false

/-- Recognise an update event in an emission trace. -/
def isUpdateEv : Event → Bool
  | .update _ _ => true
  | _ => false

/-- Recognise an error event in an emission trace. -/
def isErrorEv : Event → Bool
  | .error _ => true
  | _ => false

/-- Recognise a connect event in an emission trace. -/
def isConnectEv : Event → Bool
  | .connect => true
  | _ => false

/-- Whether a promise outcome is a resolution (ok) rather than a rejection
(error). -/
def resolved {α : Type} : Except String α → Bool
  | .ok _ => true
  | .error _ => false

/-- A nested status object: an object field a holding an inner object with
fields x and y, and a field b. -/
def statusOriginal : JsonVal :=
  JsonVal.obj
    [("a", JsonVal.obj [("x", JsonVal.num 1), ("y", JsonVal.num 2)]),
     ("b", JsonVal.num 3)]

/-- The same status object with the key insertion order changed at both
nesting levels. -/
def statusReordered : JsonVal :=
  JsonVal.obj
    [("b", JsonVal.num 3),
     ("a", JsonVal.obj [("y", JsonVal.num 2), ("x", JsonVal.num 1)])]

/- Helper lemmas shared by the claim theorems. -/

/-- A successful status fetch always resolves the updateStatus call with
the fetched value, whatever the listeners do. -/
theorem updateStatusH_ok_result (st : VLCState) (v : JsonVal)
    (hx : Option String) : (updateStatusH st (.ok v) hx).2.2 = .ok v := by
  cases hc : st.changeEvents && !deepEqual v st.status <;>
    cases hx <;> simp [updateStatusH, hc]

/-- A successful playlist fetch always resolves the updatePlaylist call
with the fetched value, whatever the listeners do. -/
theorem updatePlaylistH_ok_result (st : VLCState) (v : JsonVal)
    (hx : Option String) : (updatePlaylistH st (.ok v) hx).2.2 = .ok v := by
  cases hc : st.changeEvents && !deepEqual v st.playlist <;>
    cases hx <;> simp [updatePlaylistH, hc]

/-- updateStatus leaves the playlist cache cell untouched. -/
theorem updateStatusH_playlist (st : VLCState) (f : Except String JsonVal)
    (hx : Option String) : (updateStatusH st f hx).1.playlist = st.playlist := by
  cases f with
  | error e => rfl
  | ok v =>
      cases hc : st.changeEvents && !deepEqual v st.status <;>
        cases hx <;> simp [updateStatusH, hc]

/-- updateStatus emits no update events. -/
theorem updateStatusH_filter_update (st : VLCState) (f : Except String JsonVal)
    (hx : Option String) :
    (updateStatusH st f hx).2.1.filter isUpdateEv = [] := by
  cases f with
  | error e => rfl
  | ok v =>
      cases hc : st.changeEvents && !deepEqual v st.status <;>
        cases hx <;> simp [updateStatusH, hc, isUpdateEv]

/-- updatePlaylist emits no update events. -/
theorem updatePlaylistH_filter_update (st : VLCState) (f : Except String JsonVal)
    (hx : Option String) :
    (updatePlaylistH st f hx).2.1.filter isUpdateEv = [] := by
  cases f with
  | error e => rfl
  | ok v =>
      cases hc : st.changeEvents && !deepEqual v st.playlist <;>
        cases hx <;> simp [updatePlaylistH, hc, isPlaylistChangeEv, isUpdateEv]

/-- With non-throwing listeners, updateStatus emits no error events. -/
theorem updateStatusH_filter_error (st : VLCState) (f : Except String JsonVal) :
    (updateStatusH st f none).2.1.filter isErrorEv = [] := by
  cases f with
  | error e => rfl
  | ok v =>
      cases hc : st.changeEvents && !deepEqual v st.status <;>
        simp [updateStatusH, hc, isErrorEv]

/-- With non-throwing listeners, updatePlaylist emits no error events. -/
theorem updatePlaylistH_filter_error (st : VLCState) (f : Except String JsonVal) :
    (updatePlaylistH st f none).2.1.filter isErrorEv = [] := by
  cases f with
  | error e => rfl
  | ok v =>
      cases hc : st.changeEvents && !deepEqual v st.playlist <;>
        simp [updatePlaylistH, hc, isErrorEv]

/-- Claim C1 as stated is false: with changeEvents disabled, a successful
status fetch (value 1, cached cell still null) returns the fetched value
but leaves the cache cell at null instead of overwriting it. -/
theorem C1_counterexample :
    (updateStatusH ⟨false, JsonVal.null, JsonVal.null⟩
        (.ok (JsonVal.num 1)) none).2.2 = .ok (JsonVal.num 1) ∧
    (updateStatusH ⟨false, JsonVal.null, JsonVal.null⟩
        (.ok (JsonVal.num 1)) none).1.status = JsonVal.null ∧
    (updateStatusH ⟨false, JsonVal.null, JsonVal.null⟩
        (.ok (JsonVal.num 1)) none).1.status ≠ JsonVal.num 1 :=
  ⟨rfl, rfl, fun h => JsonVal.noConfusion h⟩

/-- Claim C1 amended: after a successful fetch, updateStatus (and
symmetrically updatePlaylist) always returns the fetched value, but the
cache cell is overwritten only when changeEvents is enabled and the fetched
value is deep-unequal to the cached value; otherwise the cache is left
unchanged. -/
theorem C1_cache_overwrite_conditional :
    ∀ (st : VLCState) (v : JsonVal),
      (updateStatusH st (.ok v) none).2.2 = .ok v ∧
      (updateStatusH st (.ok v) none).1.status =
        (if st.changeEvents && !deepEqual v st.status then v else st.status) ∧
      (updatePlaylistH st (.ok v) none).2.2 = .ok v ∧
      (updatePlaylistH st (.ok v) none).1.playlist =
        (if st.changeEvents && !deepEqual v st.playlist then v
         else st.playlist) := by
  intro st v
  refine ⟨?_, ?_, ?_, ?_⟩
  · cases hc : st.changeEvents && !deepEqual v st.status <;>
      simp [updateStatusH, hc]
  · cases hc : st.changeEvents && !deepEqual v st.status <;>
      simp [updateStatusH, hc]
  · cases hc : st.changeEvents && !deepEqual v st.playlist <;>
      simp [updatePlaylistH, hc]
  · cases hc : st.changeEvents && !deepEqual v st.playlist <;>
      simp [updatePlaylistH, hc]

/-- Claim C2 as stated is false: with the previous target at 0 and a period
of 100, a fire at instant 37 moves the target to 137, not to the previous
target plus one period (100), so the target does depend on the actual fire
time. -/
theorem C2_counterexample :
    (doTickSched ⟨0, 0, 100⟩ 37).1.target = 137 ∧
    (doTickSched ⟨0, 0, 100⟩ 37).1.target ≠
      (⟨0, 0, 100⟩ : SchedState).target + (⟨0, 0, 100⟩ : SchedState).tickLengthNano :=
  ⟨rfl, by decide⟩

/-- Claim C2 amended: on every fire, the next wake target is computed from
the current time at fire time plus one tick period (target becomes now plus
period), the previous-fire instant becomes now, and a tick event carrying
the elapsed time since the previous fire is emitted; a late fire therefore
shifts the whole schedule and the lateness is not compensated. -/
theorem C2_target_from_fire_time :
    ∀ (s : SchedState) (now : Int), s.target ≤ now →
      (doTickSched s now).1.target = now + s.tickLengthNano ∧
      (doTickSched s now).1.prev = now ∧
      (doTickSched s now).2 = [Event.tick (now - s.prev)] := by
  intro s now h
  unfold doTickSched
  rw [if_pos (show now ≥ s.target from h)]
  exact ⟨rfl, rfl, rfl⟩

/-- Witness for the amended Claim C2 at a concrete late fire. -/
theorem C2_target_from_fire_time_witness :
    (doTickSched ⟨0, 0, 100⟩ 37).1.target = 37 + (⟨0, 0, 100⟩ : SchedState).tickLengthNano ∧
    (doTickSched ⟨0, 0, 100⟩ 37).1.prev = 37 ∧
    (doTickSched ⟨0, 0, 100⟩ 37).2 = [Event.tick (37 - (⟨0, 0, 100⟩ : SchedState).prev)] :=
  C2_target_from_fire_time ⟨0, 0, 100⟩ 37 (by decide)

/-- Claim C3 as stated is false: when the initial probe fails with
autoUpdate enabled, the rejection is routed to the error event, but because
the then-handler is attached behind the catch-handler it still runs, so the
tick loop is armed anyway. -/
theorem C3_counterexample :
    (startup true (.error "ECONNREFUSED")).1 = [Event.error "ECONNREFUSED"] ∧
    (startup true (.error "ECONNREFUSED")).2 = true :=
  ⟨rfl, rfl⟩

/-- Claim C3 amended: on construction exactly one reachability probe is
performed; if it fails the error is routed to the error event; and the tick
loop is armed exactly when autoUpdate is enabled, regardless of the probe
outcome. -/
theorem C3_armed_iff_autoUpdate :
    ∀ (au : Bool) (probe : Except String JsonVal),
      (startup au probe).2 = au ∧
      (startup au probe).1 =
        (match probe with
         | .error e => [Event.error e]
         | .ok _ => []) := by
  intro au probe
  cases probe <;> exact ⟨rfl, rfl⟩

/-- Claim C4 is right about the documented surface but the code never emits
a connect event: the construction path emits at most an error event,
whatever the probe outcome and configuration. -/
theorem C4_no_connect_event :
    ∀ (au : Bool) (probe : Except String JsonVal),
      (startup au probe).1.any isConnectEv = false := by
  intro au probe
  cases probe <;> rfl

/-- Claim C5 as stated is false: addToQueueAndPlay with the option argument
omitted still serializes an option key - the query object carries the keys
command, input and option, and the request path ends in an option key with
an empty value instead of omitting it. -/
theorem C5_counterexample :
    (sendCommandPairs (some "in_play")
        (addToQueueAndPlayParams "file:///a.mp3" none)).map
          (fun ps => ps.map Prod.fst)
      = some ["command", "input", "option"] ∧
    addToQueueAndPlayPath "file:///a.mp3" none
      = "/requests/status.json?command=in_play&input=file:///a.mp3&option=" :=
  ⟨rfl, rfl⟩

/-- Claim C5 amended: for every dispatch with a truthy command name, the
query object is the command key followed by every key of the params object,
including keys whose value is undefined, which querystring.stringify
serializes with an empty value (key present as key=) rather than omitting;
in particular addToQueueAndPlay always serializes command, input and
option, with option empty when the caller omitted it. -/
theorem C5_undefined_serialized_empty :
    (∀ (c : Option String) (opts : List (String × JsParam)),
        commandTruthy c = true →
        sendCommandPairs c opts
          = some (objLit (("command", JsParam.str (c.getD "")) :: opts))) ∧
    (∀ (uri : String) (opt : Option String),
        sendCommandPairs (some "in_play") (addToQueueAndPlayParams uri opt)
          = some [("command", JsParam.str "in_play"),
                  ("input", JsParam.str uri),
                  ("option", match opt with
                             | some o => JsParam.str o
                             | none => JsParam.undef)]) ∧
    coerceParam JsParam.undef = "" := by
  refine ⟨?_, ?_, rfl⟩
  · intro c opts h
    simp [sendCommandPairs, h]
  · intro uri opt
    cases opt <;> rfl

/-- Witness for the amended Claim C5 at a concrete truthy command. -/
theorem C5_undefined_serialized_empty_witness :
    sendCommandPairs (some "in_play") []
      = some (objLit (("command", JsParam.str ((some "in_play").getD "")) :: [])) :=
  C5_undefined_serialized_empty.1 (some "in_play") [] rfl

/-- Claim C6 is right about the intent but the code drops the params when
no command is given: the second serialization branch tests the query
variable (still null) instead of the options, so it never runs, the browse
request carries no query string at all, and the dir parameter is lost for
every target path. -/
theorem C6_browse_dir_dropped :
    ∀ (p : String),
      browsePath p = CommandScope.BROWSE ∧
      sendCommandPairs none [("dir", JsParam.str p)] = none := by
  intro p
  exact ⟨rfl, rfl⟩

/-- Claim C7 as stated is false: with changeEvents enabled, a cached status
of an object whose field a holds the number 1 and a fetched status of the
same object with the string 1 instead are structurally (deep-) unequal, so
the claim requires a statuschange event, yet the deep-equal package in its
default loose mode compares them equal (the leaf comparison is the coercive
JS ==, under which the string 1 equals the number 1) and the code fires no
event. -/
theorem C7_counterexample :
    JsonVal.obj [("a", JsonVal.str "1")] ≠ JsonVal.obj [("a", JsonVal.num 1)] ∧
    deepEqual (JsonVal.obj [("a", JsonVal.str "1")])
      (JsonVal.obj [("a", JsonVal.num 1)]) = true ∧
    (updateStatusH ⟨true, JsonVal.obj [("a", JsonVal.num 1)], JsonVal.null⟩
        (.ok (JsonVal.obj [("a", JsonVal.str "1")])) none).2.1 = [] :=
  ⟨by simp, rfl, rfl⟩

/-- Claim C7 amended: with changeEvents enabled, a statuschange event fires
exactly when the freshly fetched status is unequal to the cached status
under the deep-equal package in its default loose mode - structural on
arrays and objects with key insertion order irrelevant, but coercive JS ==
on primitive leaves; a deeply nested object whose key insertion order was
changed at every level compares equal to the original, so it fires no
event. -/
theorem C7_statuschange_iff_loose_unequal :
    (∀ (st : VLCState) (v : JsonVal), st.changeEvents = true →
        (updateStatusH st (.ok v) none).2.1.any isStatusChangeEv
          = !deepEqual v st.status) ∧
    deepEqual statusReordered statusOriginal = true ∧
    (updateStatusH ⟨true, statusOriginal, JsonVal.null⟩
        (.ok statusReordered) none).2.1 = [] := by
  refine ⟨?_, rfl, rfl⟩
  intro st v h
  cases hd : deepEqual v st.status <;>
    simp [updateStatusH, h, hd, isStatusChangeEv]

/-- Witness for the amended Claim C7 at a concrete state with changeEvents
enabled. -/
theorem C7_statuschange_iff_loose_unequal_witness :
    (updateStatusH ⟨true, JsonVal.null, JsonVal.null⟩
        (.ok (JsonVal.num 1)) none).2.1.any isStatusChangeEv
      = !deepEqual (JsonVal.num 1) JsonVal.null :=
  C7_statuschange_iff_loose_unequal.1 ⟨true, JsonVal.null, JsonVal.null⟩
    (JsonVal.num 1) rfl

/-- With non-throwing listeners, a direct updateAll call emits no error
events, whatever the two fetch outcomes. -/
theorem updateAll_filter_error (st : VLCState) (fs fp : Except String JsonVal) :
    (updateAll st fs fp).2.1.filter isErrorEv = [] := by
  rcases h1 : updateStatusH st fs none with ⟨st1, evs1, r1⟩
  have he1 : evs1.filter isErrorEv = [] := by
    have h := updateStatusH_filter_error st fs
    rw [h1] at h
    exact h
  rcases h2 : updatePlaylistH st1 fp none with ⟨st2, evs2, r2⟩
  have he2 : evs2.filter isErrorEv = [] := by
    have h := updatePlaylistH_filter_error st1 fp
    rw [h2] at h
    exact h
  rcases r1 with e1 | v1 <;> rcases r2 with e2 | v2 <;>
    simp [updateAll, updateAllH, h1, h2, List.filter_append, he1, he2,
      isErrorEv]

/-- Claim C8: a successful updateAll resolves with the status/playlist pair
and its emission trace holds exactly one update event, the one carrying
that pair; when either fetch fails, the call does not resolve (the
rejection propagates) and no update event is emitted. -/
theorem C8_updateAll_pair_and_event :
    ∀ (st : VLCState) (fs fp : Except String JsonVal),
      (∀ s p, fs = .ok s → fp = .ok p →
        (updateAll st fs fp).2.2 = .ok (s, p) ∧
        (updateAll st fs fp).2.1.filter isUpdateEv = [Event.update s p]) ∧
      ((resolved fs = false ∨ resolved fp = false) →
        resolved (updateAll st fs fp).2.2 = false ∧
        (updateAll st fs fp).2.1.filter isUpdateEv = []) := by
  intro st fs fp
  constructor
  · rintro s p rfl rfl
    rcases h1 : updateStatusH st (.ok s) none with ⟨st1, evs1, r1⟩
    have hr1 : r1 = .ok s := by
      have h := updateStatusH_ok_result st s none
      rw [h1] at h
      exact h
    have he1 : evs1.filter isUpdateEv = [] := by
      have h := updateStatusH_filter_update st (.ok s) none
      rw [h1] at h
      exact h
    rcases h2 : updatePlaylistH st1 (.ok p) none with ⟨st2, evs2, r2⟩
    have hr2 : r2 = .ok p := by
      have h := updatePlaylistH_ok_result st1 p none
      rw [h2] at h
      exact h
    have he2 : evs2.filter isUpdateEv = [] := by
      have h := updatePlaylistH_filter_update st1 (.ok p) none
      rw [h2] at h
      exact h
    subst hr1
    subst hr2
    simp [updateAll, updateAllH, h1, h2, List.filter_append, he1, he2,
      isUpdateEv]
  · intro hfail
    rcases fs with e | s
    · rcases h2 : updatePlaylistH st fp none with ⟨st2, evs2, r2⟩
      have he2 : evs2.filter isUpdateEv = [] := by
        have h := updatePlaylistH_filter_update st fp none
        rw [h2] at h
        exact h
      rcases r2 with e2 | p <;>
        simp [updateAll, updateAllH, updateStatusH, h2, resolved,
          List.filter_append, he2]
    · rcases fp with e2 | p
      · rcases h1 : updateStatusH st (.ok s) none with ⟨st1, evs1, r1⟩
        have hr1 : r1 = .ok s := by
          have h := updateStatusH_ok_result st s none
          rw [h1] at h
          exact h
        have he1 : evs1.filter isUpdateEv = [] := by
          have h := updateStatusH_filter_update st (.ok s) none
          rw [h1] at h
          exact h
        subst hr1
        simp [updateAll, updateAllH, h1, updatePlaylistH, resolved,
          List.filter_append, he1]
      · simp [resolved] at hfail

/-- Witness for Claim C8: a concrete successful updateAll and a concrete
one with a failed status fetch. -/
theorem C8_updateAll_pair_and_event_witness :
    ((updateAll ⟨true, JsonVal.null, JsonVal.null⟩ (.ok (JsonVal.num 1))
        (.ok (JsonVal.num 2))).2.2 = .ok (JsonVal.num 1, JsonVal.num 2) ∧
     (updateAll ⟨true, JsonVal.null, JsonVal.null⟩ (.ok (JsonVal.num 1))
        (.ok (JsonVal.num 2))).2.1.filter isUpdateEv
       = [Event.update (JsonVal.num 1) (JsonVal.num 2)]) ∧
    (resolved (updateAll ⟨true, JsonVal.null, JsonVal.null⟩ (.error "E")
        (.ok JsonVal.null)).2.2 = false ∧
     (updateAll ⟨true, JsonVal.null, JsonVal.null⟩ (.error "E")
        (.ok JsonVal.null)).2.1.filter isUpdateEv = []) :=
  ⟨(C8_updateAll_pair_and_event ⟨true, JsonVal.null, JsonVal.null⟩
      (.ok (JsonVal.num 1)) (.ok (JsonVal.num 2))).1
      (JsonVal.num 1) (JsonVal.num 2) rfl rfl,
   (C8_updateAll_pair_and_event ⟨true, JsonVal.null, JsonVal.null⟩
      (.error "E") (.ok JsonVal.null)).2 (Or.inl rfl)⟩

/-- Claim C9: a transport failure during a direct call rejects that call
without emitting an error event (updateStatus and updatePlaylist return
the rejection with an empty emission trace, and a direct updateAll emits
no error event whatever the fetch outcomes), while the scheduler-triggered
refresh, whose rejection is consumed by the attached catch handler and
which therefore exposes no promise at all, emits exactly one error event
when the refresh failed and none when it succeeded. -/
theorem C9_direct_rejects_scheduler_emits :
    (∀ (st : VLCState) (e : String) (hx : Option String),
        updateStatusH st (.error e) hx = (st, [], .error e)) ∧
    (∀ (st : VLCState) (e : String) (hx : Option String),
        updatePlaylistH st (.error e) hx = (st, [], .error e)) ∧
    (∀ (st : VLCState) (fs fp : Except String JsonVal),
        (updateAll st fs fp).2.1.filter isErrorEv = []) ∧
    (∀ (st : VLCState) (fs fp : Except String JsonVal),
        resolved (updateAll st fs fp).2.2 = false →
        ((doTickRefresh st fs fp).2.filter isErrorEv).length = 1) ∧
    (∀ (st : VLCState) (fs fp : Except String JsonVal),
        resolved (updateAll st fs fp).2.2 = true →
        (doTickRefresh st fs fp).2.filter isErrorEv = []) := by
  refine ⟨fun st e hx => rfl, fun st e hx => rfl, updateAll_filter_error,
    ?_, ?_⟩
  · intro st fs fp h
    rcases hu : updateAll st fs fp with ⟨st2, evs, r⟩
    have hevs : evs.filter isErrorEv = [] := by
      have hh := updateAll_filter_error st fs fp
      rw [hu] at hh
      exact hh
    rcases r with e | v
    · simp [doTickRefresh, hu, List.filter_append, hevs, isErrorEv]
    · rw [hu] at h
      simp [resolved] at h
  · intro st fs fp h
    rcases hu : updateAll st fs fp with ⟨st2, evs, r⟩
    have hevs : evs.filter isErrorEv = [] := by
      have hh := updateAll_filter_error st fs fp
      rw [hu] at hh
      exact hh
    rcases r with e | v
    · rw [hu] at h
      simp [resolved] at h
    · simp [doTickRefresh, hu, hevs]

/-- Witness for Claim C9 at concrete fetch outcomes: a failed scheduler
refresh emits one error event, a successful one emits none. -/
theorem C9_direct_rejects_scheduler_emits_witness :
    ((doTickRefresh ⟨true, JsonVal.null, JsonVal.null⟩ (.error "E")
        (.ok JsonVal.null)).2.filter isErrorEv).length = 1 ∧
    (doTickRefresh ⟨true, JsonVal.null, JsonVal.null⟩ (.ok JsonVal.null)
        (.ok JsonVal.null)).2.filter isErrorEv = [] :=
  ⟨C9_direct_rejects_scheduler_emits.2.2.2.1
      ⟨true, JsonVal.null, JsonVal.null⟩ (.error "E") (.ok JsonVal.null) rfl,
   C9_direct_rejects_scheduler_emits.2.2.2.2
      ⟨true, JsonVal.null, JsonVal.null⟩ (.ok JsonVal.null)
      (.ok JsonVal.null) rfl⟩

/-- Claim C10: when a change listener throws during updateStatus (resp.
updatePlaylist) - which presupposes the event was emitted, so changeEvents
is enabled and the fetched value is deep-unequal to the cached one - the
exception is caught and re-emitted as an error event, the cache cell is
still overwritten with the fetched value, and the call still resolves with
the fetched value. -/
theorem C10_listener_exception_contained :
    (∀ (st : VLCState) (v : JsonVal) (ex : String),
        st.changeEvents = true → deepEqual v st.status = false →
        updateStatusH st (.ok v) (some ex)
          = ({ st with status := v },
             [Event.statuschange
                (if truthy st.status then st.status else v) v,
              Event.error ex],
             .ok v)) ∧
    (∀ (st : VLCState) (v : JsonVal) (ex : String),
        st.changeEvents = true → deepEqual v st.playlist = false →
        updatePlaylistH st (.ok v) (some ex)
          = ({ st with playlist := v },
             [Event.playlistchange
                (if truthy st.playlist then st.playlist else v) v,
              Event.error ex],
             .ok v)) := by
  constructor
  · intro st v ex h1 h2
    simp [updateStatusH, h1, h2]
  · intro st v ex h1 h2
    simp [updatePlaylistH, h1, h2]

/-- Witness for Claim C10 at a concrete throwing statuschange listener. -/
theorem C10_listener_exception_contained_witness :
    updateStatusH ⟨true, JsonVal.null, JsonVal.null⟩ (.ok (JsonVal.num 7))
        (some "boom")
      = ({ (⟨true, JsonVal.null, JsonVal.null⟩ : VLCState) with
            status := JsonVal.num 7 },
         [Event.statuschange
            (if truthy JsonVal.null then JsonVal.null else JsonVal.num 7)
            (JsonVal.num 7),
          Event.error "boom"],
         .ok (JsonVal.num 7)) :=
  C10_listener_exception_contained.1 ⟨true, JsonVal.null, JsonVal.null⟩
    (JsonVal.num 7) "boom" rfl rfl

end VlcHttp


